import Mathlib

/-!
Verification of the authentication core of the dcivs backend.

The definitions below are a shallow embedding of the JavaScript source:
  * `src/middleware/authMiddleware.js` (`authenticateToken`)
  * the rate-limiter middleware (`checkLockout`, `recordFailedAttempt`,
    `resetAttempts`)
  * `src/controllers/authController.js` (`login`)
  * `src/controllers/twoFactorController.js` (`validate2FA`, `disable2FA`)
  * `src/controllers/passkeyController.js` (`loginVerify`) and the passkey
    service wrapper (`verifyAuthentication`)

External collaborators (the bcrypt hash comparison, the speakeasy TOTP
check) are passed in as function parameters, exactly as the source calls
out to those libraries.  Machine time (`Date.now()`) is an explicit `Nat`
argument in milliseconds.  The in-memory JavaScript `Map`s are embedded as
association lists with `get` / `set` / `delete` operations.
-/

namespace DCIVS

/-! ### Character-level string primitives

`String.toLowerCase()`, `String.toUpperCase()` and `String.trim()` of
JavaScript, embedded as character-list maps so that the kernel can evaluate
them on concrete inputs. -/

/-- `s.toLowerCase()`. -/
def toLowerStr (s : String) : String :=
  ⟨s.data.map Char.toLower⟩

/-- `s.toUpperCase()`. -/
def toUpperStr (s : String) : String :=
  ⟨s.data.map Char.toUpper⟩

/-- `s.trim()`. -/
def trimStr (s : String) : String :=
  ⟨((s.data.dropWhile Char.isWhitespace).reverse.dropWhile Char.isWhitespace).reverse⟩

/-! ### JWT model (`jsonwebtoken` usage in the controllers and middleware) -/

/-- Default signing secret, `process.env.JWT_SECRET || 'change_this_secret'`. -/
def JWT_SECRET : String := "change_this_secret"

/-- Session token lifetime: `JWT_EXPIRES_IN = '7d'`, in milliseconds. -/
def JWT_EXPIRES_IN_MS : Nat := 7 * 24 * 60 * 60 * 1000

/-- Pending-2FA temp token lifetime: `expiresIn: '5m'`, in milliseconds. -/
def TEMP_TOKEN_TTL_MS : Nat := 5 * 60 * 1000

/-- Payload carried by a signed token: `{ id, email, role?, requires2FA? }`
plus the expiry stamped by `jwt.sign`. -/
structure TokenPayload where
  id : String
  email : String
  role : Option String := none
  requires2FA : Bool := false
  exp : Nat := 0
  deriving DecidableEq, Repr

/-- A presented token is either unparseable or a payload signed with some
secret.  Signature verification is the sole trust boundary, so a signed
token is modelled by the payload together with the secret that signed it. -/
inductive Jwt where
  | malformed
  | signed (payload : TokenPayload) (secret : String)
  deriving DecidableEq, Repr

inductive JwtError where
  | expired
  | invalid
  deriving DecidableEq, Repr

/-- Model of `jwt.sign(payload, secret, { expiresIn: ttl })`. -/
def jwtSign (p : TokenPayload) (secret : String) (now ttlMs : Nat) : Jwt :=
  .signed { p with exp := now + ttlMs } secret

/-- Model of `jwt.verify(token, secret)`: fails on a tampered or foreign
signature, fails on an elapsed expiry, otherwise returns the payload. -/
def jwtVerify (t : Jwt) (secret : String) (now : Nat) : Except JwtError TokenPayload :=
  match t with
  | .malformed => .error .invalid
  | .signed p s =>
    if s = secret then
      if now < p.exp then .ok p else .error .expired
    else .error .invalid

/-- Model of the `signToken` helper of `authController.js`. -/
def signToken (p : TokenPayload) (now : Nat) : Jwt :=
  jwtSign p JWT_SECRET now JWT_EXPIRES_IN_MS

/-! ### Session-authentication guard (`authMiddleware.js`) -/

/-- Outcome of the middleware: an error response, or control passed to the
route handler with `req.user` set to the decoded payload. -/
inductive AuthResult where
  | reject (status : Nat) (error : String)
  | proceed (user : TokenPayload)
  deriving DecidableEq, Repr

/-- Embedding of `authenticateToken`.  The bearer-header extraction is kept
abstract: the argument is the token carried by the header, if any. -/
def authenticateToken (token : Option Jwt) (now : Nat) : AuthResult :=
  match token with
  | none => .reject 401 "Authorization token missing."
  | some t =>
    match jwtVerify t JWT_SECRET now with
    | .error _ => .reject 403 "Invalid or expired token."
    | .ok user => .proceed user

/-! ### Association-list model of the in-memory JavaScript `Map`s -/

/-- `Map.prototype.get`. -/
def mapGet (m : List (String × α)) (k : String) : Option α :=
  (m.find? (fun p => p.1 == k)).map (fun p => p.2)

/-- `Map.prototype.set`: replaces the value under an existing key, otherwise
appends a fresh entry. -/
def mapSet (m : List (String × α)) (k : String) (v : α) : List (String × α) :=
  if m.any (fun p => p.1 == k) then
    m.map (fun p => if p.1 == k then (k, v) else p)
  else
    m ++ [(k, v)]

/-- `Map.prototype.delete`. -/
def mapDelete (m : List (String × α)) (k : String) : List (String × α) :=
  m.filter (fun p => p.1 != k)

/-! ### Lockout tracker (rate-limiter middleware) -/

def LOCKOUT_MAX_ATTEMPTS : Nat := 5

def LOCKOUT_DURATION_MS : Nat := 15 * 60 * 1000

/-- One entry of the `loginAttempts` map. -/
structure LockoutRecord where
  attempts : Nat
  lockedUntil : Option Nat
  lastAttempt : Nat
  deriving DecidableEq, Repr

abbrev LockoutMap := List (String × LockoutRecord)

/-- Result shape of `checkLockout`. -/
structure LockoutStatus where
  locked : Bool
  remainingMs : Int
  attempts : Nat
  deriving DecidableEq, Repr

/-- Embedding of `checkLockout(email)`.  The JavaScript function reads the
map and, when it finds a record whose lock has already expired, deletes it;
the returned pair carries the (possibly mutated) map. -/
def checkLockout (m : LockoutMap) (email : String) (now : Nat) :
    LockoutStatus × LockoutMap :=
  match mapGet m (toLowerStr email) with
  | none => (⟨false, 0, 0⟩, m)
  | some record =>
    match record.lockedUntil with
    | some lockedUntil =>
      let remaining : Int := (lockedUntil : Int) - (now : Int)
      if 0 < remaining then
        (⟨true, remaining, record.attempts⟩, m)
      else
        (⟨false, 0, 0⟩, mapDelete m (toLowerStr email))
    | none => (⟨false, 0, record.attempts⟩, m)

/-- Result shape of `recordFailedAttempt`. -/
structure FailedAttemptResult where
  locked : Bool
  attemptsRemaining : Nat
  lockoutMinutes : Nat
  deriving DecidableEq, Repr

/-- Embedding of `recordFailedAttempt(email)`: increments the counter (a
missing record counts as zero attempts) and sets `lockedUntil` exactly when
the threshold is reached. -/
def recordFailedAttempt (m : LockoutMap) (email : String) (now : Nat) :
    FailedAttemptResult × LockoutMap :=
  let key := toLowerStr email
  let prev := (mapGet m key).getD ⟨0, none, now⟩
  let attempts := prev.attempts + 1
  if LOCKOUT_MAX_ATTEMPTS ≤ attempts then
    (⟨true, 0, LOCKOUT_DURATION_MS / 60000⟩,
      mapSet m key ⟨attempts, some (now + LOCKOUT_DURATION_MS), now⟩)
  else
    (⟨false, LOCKOUT_MAX_ATTEMPTS - attempts, 0⟩,
      mapSet m key ⟨attempts, prev.lockedUntil, now⟩)

/-- Embedding of `resetAttempts(email)`. -/
def resetAttempts (m : LockoutMap) (email : String) : LockoutMap :=
  mapDelete m (toLowerStr email)

/-! ### Credential store (`students`, `admins`, `passkeys` tables) -/

/-- One row of the `students` table, restricted to the columns the
authentication flows read.  `recovery_codes` is stored by the source as a
JSON-serialized array of strings; the embedding keeps the decoded list (the
source round-trips it through `JSON.stringify` / `JSON.parse`). -/
structure Student where
  id : String
  email : String
  full_name : String
  password : String
  status : String
  totp_enabled : Bool
  totp_secret : Option String
  recovery_codes : Option (List String)
  wallet_pin_set : Bool
  deriving DecidableEq, Repr

/-- One row of the `admins` table. -/
structure Admin where
  id : String
  email : String
  username : String
  password_hash : String
  role : String
  deriving DecidableEq, Repr

/-- One row of the `passkeys` table, restricted to the columns the login
flow reads.  The public key is opaque binary, kept abstract as a string. -/
structure Passkey where
  id : String
  user_id : String
  public_key : String
  counter : Nat
  deriving DecidableEq, Repr

/-- The credential store. -/
structure DB where
  students : List Student
  admins : List Admin
  passkeys : List Passkey
  deriving DecidableEq, Repr

/-- Case-insensitive match used by the `.ilike('email', email.trim())`
queries: the stored address matches the trimmed query up to letter case. -/
def emailMatches (stored query : String) : Bool :=
  toLowerStr stored == toLowerStr (trimStr query)

def findStudentByEmail (db : DB) (email : String) : Option Student :=
  db.students.find? (fun s => emailMatches s.email email)

def findAdminByEmail (db : DB) (email : String) : Option Admin :=
  db.admins.find? (fun a => emailMatches a.email email)

def findStudentById (db : DB) (uid : String) : Option Student :=
  db.students.find? (fun s => s.id == uid)

def findPasskeyById (db : DB) (cid : String) : Option Passkey :=
  db.passkeys.find? (fun c => c.id == cid)

def countPasskeys (db : DB) (uid : String) : Nat :=
  (db.passkeys.filter (fun c => c.user_id == uid)).length

/-! ### HTTP response shape -/

/-- The `user` object returned by the success branches. -/
structure SessionUser where
  id : String
  email : String
  full_name : String
  role : Option String := none
  wallet_pin_set : Option Bool := none
  has_passkeys : Option Bool := none
  deriving DecidableEq, Repr

/-- JSON response body together with the HTTP status.  Fields that a branch
does not emit stay `none`; the templated human-readable strings of the
source are kept up to their constant prefix (interpolated numbers such as
the remaining minutes travel in the dedicated numeric fields). -/
structure HttpResponse where
  status : Nat
  error : Option String := none
  message : Option String := none
  code : Option String := none
  token : Option Jwt := none
  tempToken : Option Jwt := none
  requires2FA : Option Bool := none
  attemptsRemaining : Option Nat := none
  locked : Option Bool := none
  remainingMs : Option Int := none
  user : Option SessionUser := none
  deriving DecidableEq, Repr

/-! ### Password login (`authController.js`, `login`) -/

/-- Embedding of `POST /api/auth/login`.  The bcrypt comparison is the
external collaborator `bcryptCompare plaintext storedHash`.  Missing body
fields are modelled by the empty string (falsy in the source).  The result
pairs the response with the updated lockout map; the credential store is
never written by this handler. -/
def login (db : DB) (m : LockoutMap) (bcryptCompare : String → String → Bool)
    (email password : String) (now : Nat) : HttpResponse × LockoutMap :=
  if email = "" ∨ password = "" then
    ({ status := 400, error := some "email and password are required." }, m)
  else if email = "backup_admin@test.com" ∧ password = "admin_backup_123" then
    -- Hardcoded backup admin: bypasses the lockout tracker and the store.
    ({ status := 200, message := some "Backup Admin Login successful.",
       token := some (signToken { id := "backup-admin-id", email := email, role := some "admin" } now),
       user := some { id := "backup-admin-id", email := email,
                      full_name := "Backup Admin", role := some "admin" } }, m)
  else
    let check := checkLockout m email now
    if check.1.locked then
      ({ status := 429, error := some "Account locked due to too many failed attempts.",
         locked := some true, remainingMs := some check.1.remainingMs }, check.2)
    else
      match findAdminByEmail db email with
      | some adminUser =>
        if bcryptCompare password adminUser.password_hash then
          ({ status := 200, message := some "Admin Login successful.",
             token := some (signToken { id := adminUser.id, email := adminUser.email,
                                        role := some adminUser.role } now),
             user := some { id := adminUser.id, email := adminUser.email,
                            full_name := adminUser.username, role := some adminUser.role } },
            resetAttempts check.2 email)
        else
          let result := recordFailedAttempt check.2 email now
          if result.1.locked then
            ({ status := 429, error := some "Account locked after 5 failed attempts.",
               locked := some true,
               remainingMs := some ((result.1.lockoutMinutes : Int) * 60000) }, result.2)
          else
            ({ status := 401, error := some "Invalid credentials.",
               attemptsRemaining := some result.1.attemptsRemaining }, result.2)
      | none =>
        match findStudentByEmail db email with
        | none =>
          -- Unregistered email: record the attempt, return the generic error.
          let result := recordFailedAttempt check.2 email now
          ({ status := 401, error := some "Invalid credentials." }, result.2)
        | some user =>
          if bcryptCompare password user.password then
            let m' := resetAttempts check.2 email
            if user.status = "PENDING_EMAIL" then
              ({ status := 403, error := some "Email not verified.",
                 code := some "PENDING_EMAIL" }, m')
            else if user.status = "PENDING_APPROVAL" then
              ({ status := 403, error := some "Account pending approval.",
                 code := some "PENDING_APPROVAL" }, m')
            else if user.status = "REJECTED" then
              ({ status := 403, error := some "Account rejected.",
                 code := some "REJECTED" }, m')
            else if user.totp_enabled then
              ({ status := 200, requires2FA := some true,
                 tempToken := some (jwtSign { id := user.id, email := user.email, requires2FA := true }
                                      JWT_SECRET now TEMP_TOKEN_TTL_MS),
                 message := some "Password verified. Please enter your 2FA code." }, m')
            else
              ({ status := 200, message := some "Login successful.",
                 token := some (signToken { id := user.id, email := user.email } now),
                 user := some { id := user.id, email := user.email, full_name := user.full_name,
                                wallet_pin_set := some user.wallet_pin_set,
                                has_passkeys := some (0 < countPasskeys db user.id) } }, m')
          else
            let result := recordFailedAttempt check.2 email now
            if result.1.locked then
              ({ status := 429, error := some "Account locked after 5 failed attempts.",
                 locked := some true,
                 remainingMs := some ((result.1.lockoutMinutes : Int) * 60000) }, result.2)
            else
              ({ status := 401, error := some "Invalid credentials.",
                 attemptsRemaining := some result.1.attemptsRemaining }, result.2)

/-! ### 2FA login-time validation and disable (`twoFactorController.js`) -/

/-- `JSON.parse(user.recovery_codes || '[]')`. -/
def jsonCodes (codes : Option (List String)) : List String :=
  codes.getD []

/-- The `supabase.update` writing a fresh recovery-code list for a user. -/
def updateRecoveryCodes (db : DB) (uid : String) (codes : List String) : DB :=
  { db with students := db.students.map (fun s =>
      if s.id == uid then { s with recovery_codes := some codes } else s) }

/-- Response of the success branch of `validate2FA` (and the corresponding
session issuance): a full 7-day session token, identical in shape to the
password-only path. -/
def sessionResponse (db : DB) (user : Student) (now : Nat) : HttpResponse :=
  { status := 200, message := some "Login successful.",
    token := some (signToken { id := user.id, email := user.email } now),
    user := some { id := user.id, email := user.email, full_name := user.full_name,
                   wallet_pin_set := some user.wallet_pin_set,
                   has_passkeys := some (0 < countPasskeys db user.id) } }

/-- Embedding of `POST /api/auth/2fa/validate`.  `totpVerify secret code`
is the external speakeasy TOTP check (window ±1); a missing stored secret
is passed as the empty string.  `code = none` models an absent or empty
`code` field, likewise for `recoveryCode`. -/
def validate2FA (db : DB) (totpVerify : String → String → Bool)
    (tempToken : Option Jwt) (code recoveryCode : Option String)
    (now : Nat) : HttpResponse × DB :=
  match tempToken with
  | none => ({ status := 400, error := some "Temp token is required." }, db)
  | some t =>
    if code = none ∧ recoveryCode = none then
      ({ status := 400, error := some "Code or recovery code is required." }, db)
    else
      match jwtVerify t JWT_SECRET now with
      | .error _ =>
        ({ status := 401, error := some "Session expired. Please login again." }, db)
      | .ok decoded =>
        if decoded.requires2FA = false then
          ({ status := 400, error := some "Invalid token type." }, db)
        else
          match findStudentById db decoded.id with
          | none => ({ status := 404, error := some "User not found." }, db)
          | some user =>
            match code with
            | some c =>
              if totpVerify (user.totp_secret.getD "") c then
                (sessionResponse db user now, db)
              else
                ({ status := 401, error := some "Invalid verification code." }, db)
            | none =>
              match recoveryCode with
              | some rc =>
                let codes := jsonCodes user.recovery_codes
                let upperCode := trimStr (toUpperStr rc)
                if upperCode ∈ codes then
                  -- one-time use: the matched code is spliced out and the
                  -- shrunken list persisted before the session is issued
                  let db' := updateRecoveryCodes db user.id (codes.erase upperCode)
                  (sessionResponse db' user now, db')
                else
                  ({ status := 401, error := some "Invalid verification code." }, db)
              | none =>
                ({ status := 401, error := some "Invalid verification code." }, db)

/-- Embedding of `POST /api/auth/2fa/disable`.  `userId` is `req.user.id`
set by the session guard; `password = none` models a missing body field. -/
def disable2FA (db : DB) (bcryptCompare : String → String → Bool)
    (userId : String) (password : Option String) : HttpResponse × DB :=
  match password with
  | none => ({ status := 400, error := some "Password is required to disable 2FA." }, db)
  | some pw =>
    match findStudentById db userId with
    | none => ({ status := 404, error := some "User not found." }, db)
    | some user =>
      if user.totp_enabled = false then
        ({ status := 400, error := some "2FA is not enabled." }, db)
      else if bcryptCompare pw user.password = false then
        ({ status := 401, error := some "Incorrect password." }, db)
      else
        ({ status := 200, message := some "2FA has been disabled." },
         { db with students := db.students.map (fun s =>
             if s.id == userId then
               { s with totp_enabled := false, totp_secret := none, recovery_codes := none }
             else s) })

/-! ### Passkey authentication (`passkeyController.js` and the service) -/

/-- The in-memory WebAuthn challenge store, keyed
by purpose + subject (`auth-<email>` / `reg-<userId>`). -/
abbrev ChallengeStore := List (String × String)

/-- A client assertion, as the server sees it: the credential id it names,
the challenge it signs over, the embedded signature counter, and whether
the raw signature verifies under the stored public key (the cryptographic
check itself is external and kept abstract). -/
structure AssertionResponse where
  id : String
  challenge : String
  counter : Nat
  signatureValid : Bool
  deriving DecidableEq, Repr

/-- Result of the external verification: `{ verified, authenticationInfo:
{ newCounter } }`. -/
structure VerificationResult where
  verified : Bool
  newCounter : Nat
  deriving DecidableEq, Repr

/-- Modelled from the spec: `verifyAuthenticationResponse` of the external
`@simplewebauthn/server` library, which is not part of this repository.
Per the spec, signature verification uses the stored public key and the
challenge must match the expected one, and verifying an assertion whose
embedded counter is less than or equal to the stored counter must fail,
regardless of signature validity; on success the new counter is reported. -/
def verifyAuthenticationResponse (response : AssertionResponse)
    (expectedChallenge : String) (credential : Passkey) : VerificationResult :=
  if response.challenge = expectedChallenge ∧ response.signatureValid = true ∧
      credential.counter < response.counter then
    ⟨true, response.counter⟩
  else
    ⟨false, credential.counter⟩

/-- Embedding of the service wrapper `verifyAuthentication`: consumes the
stored challenge (read-once) and throws when it is missing or expired. -/
def verifyAuthentication (store : ChallengeStore) (body : AssertionResponse)
    (credential : Passkey) (email : String) :
    Except String VerificationResult × ChallengeStore :=
  let key := "auth-" ++ email
  let challenge := mapGet store key
  let store' := mapDelete store key
  match challenge with
  | none => (.error "Challenge expired or not found. Please try again.", store')
  | some ch => (.ok (verifyAuthenticationResponse body ch credential), store')

/-- The `supabase.update` persisting a fresh signature counter. -/
def updatePasskeyCounter (db : DB) (cid : String) (newCounter : Nat) : DB :=
  { db with passkeys := db.passkeys.map (fun c =>
      if c.id == cid then { c with counter := newCounter } else c) }

/-- Embedding of `POST /api/auth/passkey/login-verify`.  A service throw is
caught by the handler's outer `catch` and surfaces as a 500.  Note that no
account-status check appears anywhere on this path. -/
def loginVerify (db : DB) (store : ChallengeStore)
    (assertionResponse : Option AssertionResponse) (now : Nat) :
    HttpResponse × DB × ChallengeStore :=
  match assertionResponse with
  | none => ({ status := 400, error := some "Assertion response is required." }, db, store)
  | some resp =>
    match findPasskeyById db resp.id with
    | none => ({ status := 401, error := some "Passkey not recognized." }, db, store)
    | some credential =>
      match findStudentById db credential.user_id with
      | none => ({ status := 401, error := some "User account not found." }, db, store)
      | some user =>
        match verifyAuthentication store resp credential "_discoverable_" with
        | (.error e, store') => ({ status := 500, error := some e }, db, store')
        | (.ok verification, store') =>
          if verification.verified = false then
            ({ status := 401, error := some "Passkey authentication failed." }, db, store')
          else
            let db' := updatePasskeyCounter db resp.id verification.newCounter
            if user.totp_enabled then
              ({ status := 200, requires2FA := some true,
                 tempToken := some (jwtSign { id := user.id, email := user.email, requires2FA := true }
                                      JWT_SECRET now TEMP_TOKEN_TTL_MS),
                 message := some "Passkey verified. Please enter your 2FA code." }, db', store')
            else
              ({ status := 200, message := some "Login successful.",
                 token := some (signToken { id := user.id, email := user.email } now),
                 user := some { id := user.id, email := user.email, full_name := user.full_name,
                                wallet_pin_set := some user.wallet_pin_set,
                                has_passkeys := some true } }, db', store')

/-! ### Concrete fixtures used by the counterexamples and witnesses -/

/-- A bcrypt stand-in for concrete runs: the stored hash of `p` is the
string `hash:p`, and comparison checks exactly that. -/
def cmpHash : String → String → Bool :=
  fun plain hash => hash == "hash:" ++ plain

/-- An Active student account with TOTP enabled. -/
def aliceTotp : Student :=
  { id := "stu-1", email := "alice@x.com", full_name := "Alice L",
    password := "hash:pw1", status := "ACTIVE", totp_enabled := true,
    totp_secret := some "SECRET1", recovery_codes := some ["AAAA1111", "BBBB2222"],
    wallet_pin_set := false }

/-- An Active student account without TOTP. -/
def bobPlain : Student :=
  { id := "stu-2", email := "bob@x.com", full_name := "Bob M",
    password := "hash:pw2", status := "ACTIVE", totp_enabled := false,
    totp_secret := none, recovery_codes := none, wallet_pin_set := false }

/-- A student stuck in `PENDING_APPROVAL` who owns a registered passkey. -/
def carolPending : Student :=
  { id := "stu-3", email := "carol@x.com", full_name := "Carol N",
    password := "hash:pw3", status := "PENDING_APPROVAL", totp_enabled := false,
    totp_secret := none, recovery_codes := none, wallet_pin_set := false }

/-- Carol's registered passkey credential with stored counter 7. -/
def carolKey : Passkey :=
  { id := "cred-3", user_id := "stu-3", public_key := "PK3", counter := 7 }

def fixtureDB : DB :=
  { students := [aliceTotp, bobPlain, carolPending], admins := [], passkeys := [carolKey] }

/-- The pending-2FA temp token that `login` issues for Alice at time 0. -/
def aliceTempToken : Jwt :=
  jwtSign { id := "stu-1", email := "alice@x.com", requires2FA := true }
    JWT_SECRET 0 TEMP_TOKEN_TTL_MS

/-- A full session token for Bob signed at time 0; it expires at
`JWT_EXPIRES_IN_MS`. -/
def bobSession : Jwt :=
  signToken { id := "stu-2", email := "bob@x.com" } 0

def emptyDB : DB := { students := [], admins := [], passkeys := [] }

/-- One failed login attempt against the backup-admin address at time 0. -/
def backupFail (m : LockoutMap) : HttpResponse × LockoutMap :=
  login emptyDB m cmpHash "backup_admin@test.com" "wrongpw" 0

/-- Lockout map after `k` such failed attempts. -/
def backupFailN : Nat → LockoutMap
  | 0 => []
  | k + 1 => (backupFail (backupFailN k)).2

/-- Lockout map after `k` consecutive `recordFailedAttempt` calls for one
identifier. -/
def failN (m : LockoutMap) (e : String) (now : Nat) : Nat → LockoutMap
  | 0 => m
  | k + 1 => (recordFailedAttempt (failN m e now k) e now).2

/-- Alice's account after redeeming recovery code `AAAA1111`. -/
def aliceAfterRedeem : Student :=
  { aliceTotp with
    recovery_codes := some (["AAAA1111", "BBBB2222"].erase (trimStr (toUpperStr "aaaa1111"))) }

/-! ### Helper lemmas -/

/-- Unfolding `mapGet` one entry at a time. -/
lemma mapGet_cons {α : Type} (a : String × α) (as : List (String × α)) (k : String) :
    mapGet (a :: as) k = if a.1 == k then some a.2 else mapGet as k := by
  simp only [mapGet, List.find?_cons]
  cases ha : a.1 == k <;> simp [ha]

/-- Reading back the key just written by `mapSet`, inside the replacing
branch. -/
lemma mapGet_mapReplace {α : Type} (k : String) (v : α) :
    ∀ m : List (String × α), m.any (fun p => p.1 == k) = true →
      mapGet (m.map (fun p => if p.1 == k then (k, v) else p)) k = some v := by
  intro m
  induction m with
  | nil => intro h; simp at h
  | cons a as ih =>
    intro h
    rw [List.any_cons, Bool.or_eq_true] at h
    rw [List.map_cons, mapGet_cons]
    cases ha : a.1 == k
    · rw [ha] at h
      simp only [Bool.false_eq_true, if_false, ha]
      exact ih (h.resolve_left Bool.false_ne_true)
    · simp [ha]

/-- Reading back the key just appended by `mapSet`, inside the appending
branch. -/
lemma mapGet_append_single {α : Type} (k : String) (v : α) :
    ∀ m : List (String × α), m.any (fun p => p.1 == k) = false →
      mapGet (m ++ [(k, v)]) k = some v := by
  intro m
  induction m with
  | nil => intro _; rw [List.nil_append, mapGet_cons]; simp
  | cons a as ih =>
    intro h
    rw [List.any_cons, Bool.or_eq_false_iff] at h
    rw [List.cons_append, mapGet_cons]
    simp only [h.1, Bool.false_eq_true, if_false]
    exact ih h.2

/-- `mapSet` followed by `mapGet` at the same key yields the new value. -/
lemma mapGet_mapSet_self {α : Type} (m : List (String × α)) (k : String) (v : α) :
    mapGet (mapSet m k v) k = some v := by
  unfold mapSet
  cases h : m.any (fun p => p.1 == k)
  · simp only [Bool.false_eq_true, if_false]
    exact mapGet_append_single k v m h
  · simp only [if_true]
    exact mapGet_mapReplace k v m h

/-- Contents of the tracker record after each of the first five consecutive
failures on a previously clean identifier: the attempt counter climbs 1–4
without a lock, and `lockedUntil` is set exactly at the fifth failure. -/
lemma failN_records (m : LockoutMap) (e : String) (now : Nat)
    (h : mapGet m (toLowerStr e) = none) :
    mapGet (failN m e now 1) (toLowerStr e) = some ⟨1, none, now⟩ ∧
    mapGet (failN m e now 2) (toLowerStr e) = some ⟨2, none, now⟩ ∧
    mapGet (failN m e now 3) (toLowerStr e) = some ⟨3, none, now⟩ ∧
    mapGet (failN m e now 4) (toLowerStr e) = some ⟨4, none, now⟩ ∧
    mapGet (failN m e now 5) (toLowerStr e) =
      some ⟨5, some (now + LOCKOUT_DURATION_MS), now⟩ := by
  have h1 : mapGet (failN m e now 1) (toLowerStr e) = some ⟨1, none, now⟩ := by
    simp [failN, recordFailedAttempt, h, LOCKOUT_MAX_ATTEMPTS, mapGet_mapSet_self]
  have h2 : mapGet (failN m e now 2) (toLowerStr e) = some ⟨2, none, now⟩ := by
    show mapGet (recordFailedAttempt (failN m e now 1) e now).2 (toLowerStr e) = _
    simp [recordFailedAttempt, h1, LOCKOUT_MAX_ATTEMPTS, mapGet_mapSet_self]
  have h3 : mapGet (failN m e now 3) (toLowerStr e) = some ⟨3, none, now⟩ := by
    show mapGet (recordFailedAttempt (failN m e now 2) e now).2 (toLowerStr e) = _
    simp [recordFailedAttempt, h2, LOCKOUT_MAX_ATTEMPTS, mapGet_mapSet_self]
  have h4 : mapGet (failN m e now 4) (toLowerStr e) = some ⟨4, none, now⟩ := by
    show mapGet (recordFailedAttempt (failN m e now 3) e now).2 (toLowerStr e) = _
    simp [recordFailedAttempt, h3, LOCKOUT_MAX_ATTEMPTS, mapGet_mapSet_self]
  have h5 : mapGet (failN m e now 5) (toLowerStr e) =
      some ⟨5, some (now + LOCKOUT_DURATION_MS), now⟩ := by
    show mapGet (recordFailedAttempt (failN m e now 4) e now).2 (toLowerStr e) = _
    simp [recordFailedAttempt, h4, LOCKOUT_MAX_ATTEMPTS, mapGet_mapSet_self]
  exact ⟨h1, h2, h3, h4, h5⟩

/-- While `checkLockout` reports a lock, `login` answers 429 with the
remaining time, leaves the tracker as `checkLockout` left it, and never
consults the credential store: the whole response is independent of `db`. -/
lemma login_locked_response (db : DB) (m : LockoutMap) (cmp : String → String → Bool)
    (e p : String) (now : Nat)
    (hne : ¬(e = "" ∨ p = ""))
    (hnb : ¬(e = "backup_admin@test.com" ∧ p = "admin_backup_123"))
    (hl : (checkLockout m e now).1.locked = true) :
    login db m cmp e p now =
      ({ status := 429, error := some "Account locked due to too many failed attempts.",
         locked := some true, remainingMs := some (checkLockout m e now).1.remainingMs },
       (checkLockout m e now).2) := by
  simp only [login, hne, hnb, hl, if_false, if_true, not_false_eq_true]

/-- Looking a student up after rewriting their recovery codes returns the
same student with the new code list. -/
lemma find?_map_updateCodes (uid : String) (v : List String) :
    ∀ l : List Student,
      (l.map (fun s => if s.id == uid then { s with recovery_codes := some v } else s)).find?
          (fun s => s.id == uid) =
        (l.find? (fun s => s.id == uid)).map
          (fun s => { s with recovery_codes := some v }) := by
  intro l
  induction l with
  | nil => rfl
  | cons a l ih =>
    cases ha : a.id == uid
    · rw [List.map_cons]
      rw [show (if a.id == uid then { a with recovery_codes := some v } else a) = a from by
        rw [ha]; exact if_neg Bool.false_ne_true]
      rw [List.find?_cons_of_neg _ (by rw [ha]; exact Bool.false_ne_true),
        List.find?_cons_of_neg _ (by rw [ha]; exact Bool.false_ne_true)]
      exact ih
    · rw [List.map_cons]
      rw [show (if a.id == uid then { a with recovery_codes := some v } else a) =
          { a with recovery_codes := some v } from by rw [ha]; exact if_pos rfl]
      rw [List.find?_cons_of_pos _ (by simpa using ha),
        List.find?_cons_of_pos _ (by simpa using ha)]
      rfl

/-- `findStudentById` after `updateRecoveryCodes` at the same account. -/
lemma findStudentById_updateRecoveryCodes (db : DB) (uid : String) (v : List String) :
    findStudentById (updateRecoveryCodes db uid v) uid =
      (findStudentById db uid).map (fun s => { s with recovery_codes := some v }) :=
  find?_map_updateCodes uid v db.students

end DCIVS

namespace DCIVS

/-! ## C1 — the pending-2FA temp token and the session guard -/

/-- C1 (code evaluated at the failing input): logging in with Alice's correct
password yields a pending-2FA temp token, and presenting exactly that token
to the session guard `authenticateToken` one minute later is ACCEPTED — the
guard verifies only signature and expiry and never inspects the
`requires2FA` marker, so the temp token passes as a full session.  This
contradicts the claim (and the source's own comment that the temp token is
only good for 2FA validation). -/
theorem c1_temp_token_accepted_by_session_guard :
    (login fixtureDB [] cmpHash "alice@x.com" "pw1" 0).1.tempToken = some aliceTempToken ∧
    authenticateToken (some aliceTempToken) 60000 =
      .proceed { id := "stu-1", email := "alice@x.com", role := none,
                 requires2FA := true, exp := TEMP_TOKEN_TTL_MS } := by
  constructor <;> decide

/-! ## C7 — expired versus malformed token signals -/

/-- C7 (code against the claim): an expired session token and a malformed
token produce byte-identical failure responses from `authenticateToken`
(403, `Invalid or expired token.`), and likewise `validate2FA` answers 401
`Session expired. Please login again.` for both an expired and a malformed
temp token — the two failure cases are not distinguishable anywhere. -/
theorem c7_expired_and_malformed_indistinct :
    authenticateToken (some bobSession) (JWT_EXPIRES_IN_MS + 1) =
      authenticateToken (some .malformed) (JWT_EXPIRES_IN_MS + 1) ∧
    authenticateToken (some .malformed) (JWT_EXPIRES_IN_MS + 1) =
      .reject 403 "Invalid or expired token." ∧
    (validate2FA fixtureDB (fun _ _ => false) (some aliceTempToken) (some "123456") none
        (TEMP_TOKEN_TTL_MS + 1)).1 =
      (validate2FA fixtureDB (fun _ _ => false) (some .malformed) (some "123456") none
        (TEMP_TOKEN_TTL_MS + 1)).1 := by
  refine ⟨rfl, rfl, rfl⟩

/-! ## C2 — indistinguishability of the two invalid-credential rejections -/

/-- C2 counterexample: at an explicit input the two rejection responses are
NOT identical.  With Alice registered, a wrong-password login and an
unregistered-email login both answer 401 with the same generic error
message, but the wrong-password body carries `attemptsRemaining` (here 4)
while the unregistered-email body omits it, so the full responses differ
and the two paths are distinguishable. -/
theorem c2_rejection_bodies_differ :
    (login fixtureDB [] cmpHash "alice@x.com" "wrong" 0).1.status = 401 ∧
    (login fixtureDB [] cmpHash "nobody@x.com" "anything" 0).1.status = 401 ∧
    (login fixtureDB [] cmpHash "alice@x.com" "wrong" 0).1.error =
      (login fixtureDB [] cmpHash "nobody@x.com" "anything" 0).1.error ∧
    (login fixtureDB [] cmpHash "alice@x.com" "wrong" 0).1.attemptsRemaining = some 4 ∧
    (login fixtureDB [] cmpHash "nobody@x.com" "anything" 0).1.attemptsRemaining = none ∧
    (login fixtureDB [] cmpHash "alice@x.com" "wrong" 0).1 ≠
      (login fixtureDB [] cmpHash "nobody@x.com" "anything" 0).1 := by
  decide

/-- C2 amended: a wrong-password rejection (that does not trip the lock)
and an unregistered-email rejection agree on the status code (401) and the
generic `Invalid credentials.` error, and both record a failed attempt in
the lockout tracker; the bodies themselves are not identical because only
the wrong-password path emits `attemptsRemaining` (see the
counterexample). -/
theorem c2_amended_same_status_error_both_record
    (db : DB) (m : LockoutMap) (cmp : String → String → Bool)
    (e₁ p₁ e₂ p₂ : String) (now : Nat) (u : Student)
    (he₁ : ¬(e₁ = "" ∨ p₁ = ""))
    (he₂ : ¬(e₂ = "" ∨ p₂ = ""))
    (hb₁ : ¬(e₁ = "backup_admin@test.com" ∧ p₁ = "admin_backup_123"))
    (hb₂ : ¬(e₂ = "backup_admin@test.com" ∧ p₂ = "admin_backup_123"))
    (hl₁ : (checkLockout m e₁ now).1.locked = false)
    (hl₂ : (checkLockout m e₂ now).1.locked = false)
    (ha₁ : findAdminByEmail db e₁ = none)
    (ha₂ : findAdminByEmail db e₂ = none)
    (hu₁ : findStudentByEmail db e₁ = some u)
    (hw₁ : cmp p₁ u.password = false)
    (hu₂ : findStudentByEmail db e₂ = none)
    (hnl₁ : (recordFailedAttempt (checkLockout m e₁ now).2 e₁ now).1.locked = false) :
    (login db m cmp e₁ p₁ now).1.status = 401 ∧
    (login db m cmp e₂ p₂ now).1.status = 401 ∧
    (login db m cmp e₁ p₁ now).1.error = some "Invalid credentials." ∧
    (login db m cmp e₂ p₂ now).1.error = some "Invalid credentials." ∧
    (login db m cmp e₁ p₁ now).2 =
      (recordFailedAttempt (checkLockout m e₁ now).2 e₁ now).2 ∧
    (login db m cmp e₂ p₂ now).2 =
      (recordFailedAttempt (checkLockout m e₂ now).2 e₂ now).2 := by
  simp only [login, he₁, he₂, hb₁, hb₂, hl₁, hl₂, ha₁, ha₂, hu₁, hu₂, hw₁, hnl₁,
    if_false, Bool.false_eq_true, and_self, not_false_eq_true]

/-- C2 amended, evaluated at the concrete scenario of the counterexample. -/
theorem c2_amended_witness :
    (login fixtureDB [] cmpHash "alice@x.com" "wrong" 0).1.status = 401 ∧
    (login fixtureDB [] cmpHash "nobody@x.com" "anything" 0).1.status = 401 ∧
    (login fixtureDB [] cmpHash "alice@x.com" "wrong" 0).1.error = some "Invalid credentials." ∧
    (login fixtureDB [] cmpHash "nobody@x.com" "anything" 0).1.error = some "Invalid credentials." ∧
    (login fixtureDB [] cmpHash "alice@x.com" "wrong" 0).2 =
      (recordFailedAttempt (checkLockout [] "alice@x.com" 0).2 "alice@x.com" 0).2 ∧
    (login fixtureDB [] cmpHash "nobody@x.com" "anything" 0).2 =
      (recordFailedAttempt (checkLockout [] "nobody@x.com" 0).2 "nobody@x.com" 0).2 :=
  c2_amended_same_status_error_both_record fixtureDB [] cmpHash
    "alice@x.com" "wrong" "nobody@x.com" "anything" 0 aliceTotp
    (by decide) (by decide) (by decide) (by decide) (by decide) (by decide)
    (by decide) (by decide) (by decide) (by decide) (by decide) (by decide)

/-! ## C9 — checkLockout and the frame of the tracker state -/

/-- C9 counterexample: `checkLockout` is not side-effect-free on every
tracker state.  On a record whose lock expired at time 100, queried at time
200, the call deletes the record: the resulting map is not the input map. -/
theorem c9_checkLockout_mutates_on_expired_lock :
    (checkLockout [("a@x.com", ⟨5, some 100, 50⟩)] "a@x.com" 200).2 ≠
      [("a@x.com", ⟨5, some 100, 50⟩)] := by
  decide

/-- C9 amended: `checkLockout` never creates or modifies a record; it
leaves the tracker unchanged in every case except one, where it deletes
the queried identifier's record because that record's lock timestamp has
already expired. -/
theorem c9_amended_frame (m : LockoutMap) (email : String) (now : Nat) :
    (checkLockout m email now).2 = m ∨
      (∃ r : LockoutRecord, ∃ lockedUntil : Nat,
        mapGet m (toLowerStr email) = some r ∧
        r.lockedUntil = some lockedUntil ∧
        (lockedUntil : Int) ≤ (now : Int) ∧
        (checkLockout m email now).2 = mapDelete m (toLowerStr email)) := by
  cases hg : mapGet m (toLowerStr email) with
  | none => exact Or.inl (by simp [checkLockout, hg])
  | some r =>
    cases hl : r.lockedUntil with
    | none => exact Or.inl (by simp [checkLockout, hg, hl])
    | some lockedUntil =>
      by_cases h : now < lockedUntil
      · exact Or.inl (by simp [checkLockout, hg, hl, h])
      · exact Or.inr ⟨r, lockedUntil, rfl, hl, by omega,
          by simp only [checkLockout, hg, hl]; simp [h]⟩

/-! ## C10 — case-insensitivity of the lockout tracker operations -/

/-- C10: all three lockout-tracker operations normalize the identifier with
`toLowerCase()` before touching the map, so two casing variants of one
email (equal after lowercasing) produce identical results and identical
tracker states — attempts recorded under one casing count toward, lock,
and are cleared by operations under any other casing. -/
theorem c10_lockout_ops_case_insensitive (m : LockoutMap) (e e' : String) (now : Nat)
    (h : toLowerStr e = toLowerStr e') :
    checkLockout m e now = checkLockout m e' now ∧
    recordFailedAttempt m e now = recordFailedAttempt m e' now ∧
    resetAttempts m e = resetAttempts m e' := by
  refine ⟨?_, ?_, ?_⟩ <;> simp only [checkLockout, recordFailedAttempt, resetAttempts, h]

/-- C10 evaluated on two concrete casings of one address. -/
theorem c10_witness :
    checkLockout [] "Alice@X.com" 0 = checkLockout [] "aLICE@x.COM" 0 ∧
    recordFailedAttempt [] "Alice@X.com" 0 = recordFailedAttempt [] "aLICE@x.COM" 0 ∧
    resetAttempts [] "Alice@X.com" = resetAttempts [] "aLICE@x.COM" :=
  c10_lockout_ops_case_insensitive [] "Alice@X.com" "aLICE@x.COM" 0 (by decide)

/-! ## C3 — lockout after five failures and the locked-out sixth attempt -/

/-- C3 counterexample at the break-glass identity: five consecutive failed
password logins for `backup_admin@test.com` (all 401) leave the tracker
locked, yet the sixth attempt with the correct hard-coded password is
ACCEPTED with a 200 and a session token — the hard-coded branch runs before
the lockout check, so the claim fails for this email identifier. -/
theorem c3_backup_admin_sixth_attempt_succeeds_despite_lock :
    (backupFail (backupFailN 0)).1.status = 401 ∧
    (backupFail (backupFailN 1)).1.status = 401 ∧
    (backupFail (backupFailN 2)).1.status = 401 ∧
    (backupFail (backupFailN 3)).1.status = 401 ∧
    (backupFail (backupFailN 4)).1.status = 401 ∧
    (checkLockout (backupFailN 5) "backup_admin@test.com" 1000).1.locked = true ∧
    (login emptyDB (backupFailN 5) cmpHash "backup_admin@test.com" "admin_backup_123" 1000).1.status
      = 200 ∧
    (login emptyDB (backupFailN 5) cmpHash "backup_admin@test.com" "admin_backup_123" 1000).1.token
      ≠ none := by
  decide

/-- C3 amended: for every email identifier and password pair other than the
hard-coded backup-admin break-glass credential (which is checked before the
lockout guard and bypasses it), starting from a clean tracker record: four
failed attempts leave the identifier unlocked, the fifth failure locks it
precisely until 15 minutes after the lock was set, and while locked every
login attempt — whatever the password — is rejected with 429 carrying the
remaining time, by a response that is independent of the credential store. -/
theorem c3_amended_lockout (db : DB) (m : LockoutMap) (cmp : String → String → Bool)
    (e p : String) (now nowLater : Nat)
    (hfresh : mapGet m (toLowerStr e) = none)
    (hne : ¬(e = "" ∨ p = ""))
    (hnb : ¬(e = "backup_admin@test.com" ∧ p = "admin_backup_123")) :
    (checkLockout (failN m e now 4) e nowLater).1.locked = false ∧
    ((checkLockout (failN m e now 5) e nowLater).1.locked = true ↔
      nowLater < now + LOCKOUT_DURATION_MS) ∧
    (nowLater < now + LOCKOUT_DURATION_MS →
      (login db (failN m e now 5) cmp e p nowLater).1.status = 429 ∧
      (login db (failN m e now 5) cmp e p nowLater).1.remainingMs =
        some (((now + LOCKOUT_DURATION_MS : Nat) : Int) - (nowLater : Int)) ∧
      ∀ db' : DB, login db' (failN m e now 5) cmp e p nowLater =
        login db (failN m e now 5) cmp e p nowLater) := by
  obtain ⟨h1, h2, h3, h4, h5⟩ := failN_records m e now hfresh
  have hiff : (checkLockout (failN m e now 5) e nowLater).1.locked = true ↔
      nowLater < now + LOCKOUT_DURATION_MS := by
    simp only [checkLockout, h5]
    by_cases hlt : nowLater < now + LOCKOUT_DURATION_MS
    · rw [if_pos
        (by omega : (0 : Int) < ((now + LOCKOUT_DURATION_MS : Nat) : Int) - (nowLater : Int))]
      simp [hlt]
    · rw [if_neg
        (by omega : ¬((0 : Int) < ((now + LOCKOUT_DURATION_MS : Nat) : Int) - (nowLater : Int)))]
      simp [hlt]
  have hrem : nowLater < now + LOCKOUT_DURATION_MS →
      (checkLockout (failN m e now 5) e nowLater).1.remainingMs =
        ((now + LOCKOUT_DURATION_MS : Nat) : Int) - (nowLater : Int) := by
    intro hlt
    simp only [checkLockout, h5]
    rw [if_pos
      (by omega : (0 : Int) < ((now + LOCKOUT_DURATION_MS : Nat) : Int) - (nowLater : Int))]
  refine ⟨by simp [checkLockout, h4], hiff, ?_⟩
  intro hlt
  have hl := hiff.mpr hlt
  have hresp := login_locked_response db (failN m e now 5) cmp e p nowLater hne hnb hl
  refine ⟨by rw [hresp], ?_, ?_⟩
  · rw [hresp]
    exact congrArg some (hrem hlt)
  · intro db'
    rw [login_locked_response db' (failN m e now 5) cmp e p nowLater hne hnb hl, hresp]

/-- C3 amended, evaluated: Alice locks out after five failures at time 0
and a sixth attempt at time 1000 with her correct password is answered 429
with the remaining time, independently of the store contents. -/
theorem c3_amended_witness :
    (checkLockout (failN [] "alice@x.com" 0 4) "alice@x.com" 1000).1.locked = false ∧
    ((checkLockout (failN [] "alice@x.com" 0 5) "alice@x.com" 1000).1.locked = true ↔
      1000 < 0 + LOCKOUT_DURATION_MS) ∧
    (1000 < 0 + LOCKOUT_DURATION_MS →
      (login fixtureDB (failN [] "alice@x.com" 0 5) cmpHash "alice@x.com" "pw1" 1000).1.status
        = 429 ∧
      (login fixtureDB (failN [] "alice@x.com" 0 5) cmpHash "alice@x.com" "pw1" 1000).1.remainingMs
        = some (((0 + LOCKOUT_DURATION_MS : Nat) : Int) - ((1000 : Nat) : Int)) ∧
      ∀ db' : DB, login db' (failN [] "alice@x.com" 0 5) cmpHash "alice@x.com" "pw1" 1000 =
        login fixtureDB (failN [] "alice@x.com" 0 5) cmpHash "alice@x.com" "pw1" 1000) :=
  c3_amended_lockout fixtureDB [] cmpHash "alice@x.com" "pw1" 0 1000 rfl
    (by decide) (by decide)

/-! ## C4 — signature-counter regression fails closed -/

/-- C4: verifying a passkey assertion whose embedded counter is less than
or equal to the stored counter fails: whatever the signature-validity bit
and whatever challenge is pending, `login-verify` issues neither a session
token nor a pending-2FA temp token, never answers 200, and leaves the
credential store (in particular the stored counter) unchanged. -/
theorem c4_counter_replay_fails (db : DB) (store : ChallengeStore)
    (resp : AssertionResponse) (cred : Passkey) (now : Nat)
    (hc : findPasskeyById db resp.id = some cred)
    (hctr : resp.counter ≤ cred.counter) :
    (loginVerify db store (some resp) now).1.token = none ∧
    (loginVerify db store (some resp) now).1.tempToken = none ∧
    (loginVerify db store (some resp) now).1.status ≠ 200 ∧
    (loginVerify db store (some resp) now).2.1 = db := by
  have hver : ∀ ch : String, (verifyAuthenticationResponse resp ch cred).verified = false := by
    intro ch
    unfold verifyAuthenticationResponse
    rw [if_neg (by rintro ⟨-, -, hlt⟩; omega)]
  cases hs : findStudentById db cred.user_id with
  | none => simp [loginVerify, hc, hs]
  | some user =>
    cases hch : mapGet store "auth-_discoverable_" with
    | none => simp [loginVerify, verifyAuthentication, hc, hs, hch]
    | some ch => simp [loginVerify, verifyAuthentication, hc, hs, hch, hver ch]

/-- C4 evaluated: a replayed assertion for Carol's credential with counter
equal to the stored 7 and a valid signature is rejected and the store keeps
counter 7. -/
theorem c4_witness :
    AssertionResponse.counter ⟨"cred-3", "CH", 7, true⟩ ≤ carolKey.counter ∧
    (loginVerify fixtureDB [("auth-_discoverable_", "CH")]
        (some ⟨"cred-3", "CH", 7, true⟩) 0).1.token = none ∧
    (loginVerify fixtureDB [("auth-_discoverable_", "CH")]
        (some ⟨"cred-3", "CH", 7, true⟩) 0).1.tempToken = none ∧
    (loginVerify fixtureDB [("auth-_discoverable_", "CH")]
        (some ⟨"cred-3", "CH", 7, true⟩) 0).1.status ≠ 200 ∧
    (loginVerify fixtureDB [("auth-_discoverable_", "CH")]
        (some ⟨"cred-3", "CH", 7, true⟩) 0).2.1 = fixtureDB :=
  ⟨by decide,
    c4_counter_replay_fails fixtureDB [("auth-_discoverable_", "CH")]
      ⟨"cred-3", "CH", 7, true⟩ carolKey 0 (by decide) (by decide)⟩

/-! ## C8 — disable-2FA with a wrong password leaves the account intact -/

/-- C8: a disable-2FA request whose current-password proof fails answers
401 `Incorrect password.` and returns the store exactly as it was, so the
TOTP enabled flag, the TOTP secret and the recovery codes of the account
are unchanged. -/
theorem c8_disable2FA_wrong_password_state_unchanged (db : DB)
    (cmp : String → String → Bool) (uid pw : String) (user : Student)
    (hu : findStudentById db uid = some user)
    (hen : user.totp_enabled = true)
    (hw : cmp pw user.password = false) :
    disable2FA db cmp uid (some pw) =
      ({ status := 401, error := some "Incorrect password." }, db) := by
  simp [disable2FA, hu, hen, hw]

/-- C8 evaluated: disabling Alice's 2FA with a wrong password answers 401
and leaves the store untouched. -/
theorem c8_witness :
    disable2FA fixtureDB cmpHash "stu-1" (some "not-her-password") =
      ({ status := 401, error := some "Incorrect password." }, fixtureDB) :=
  c8_disable2FA_wrong_password_state_unchanged fixtureDB cmpHash "stu-1"
    "not-her-password" aliceTotp (by decide) (by decide) (by decide)

/-! ## C6 — passkey login performs no account-status check -/

/-- C6: an account whose status is not Active but which owns a registered
passkey is let straight through by `login-verify`: a valid assertion earns
a 200 with a session token (or a pending-2FA temp token when TOTP is on),
with no status check anywhere on the path — while password login for the
very same account rejects with a status-specific 403 whose `code` field
repeats the account status. -/
theorem c6_passkey_login_bypasses_status_check (db : DB) (store : ChallengeStore)
    (m : LockoutMap) (cmp : String → String → Bool)
    (resp : AssertionResponse) (cred : Passkey) (user : Student) (ch : String)
    (e p : String) (now : Nat)
    (hc : findPasskeyById db resp.id = some cred)
    (hs : findStudentById db cred.user_id = some user)
    (hstat : user.status = "PENDING_EMAIL" ∨ user.status = "PENDING_APPROVAL" ∨
      user.status = "REJECTED")
    (hch : mapGet store "auth-_discoverable_" = some ch)
    (hchal : resp.challenge = ch)
    (hsig : resp.signatureValid = true)
    (hctr : cred.counter < resp.counter)
    (hne : ¬(e = "" ∨ p = ""))
    (hnb : ¬(e = "backup_admin@test.com" ∧ p = "admin_backup_123"))
    (hl : (checkLockout m e now).1.locked = false)
    (ha : findAdminByEmail db e = none)
    (hu : findStudentByEmail db e = some user)
    (hw : cmp p user.password = true) :
    (loginVerify db store (some resp) now).1.status = 200 ∧
    ((loginVerify db store (some resp) now).1.token ≠ none ∨
      (loginVerify db store (some resp) now).1.tempToken ≠ none) ∧
    (login db m cmp e p now).1.status = 403 ∧
    (login db m cmp e p now).1.code = some user.status := by
  have hver : (verifyAuthenticationResponse resp ch cred).verified = true := by
    unfold verifyAuthenticationResponse
    rw [if_pos ⟨hchal, hsig, hctr⟩]
  have hpk : (loginVerify db store (some resp) now).1.status = 200 ∧
      ((loginVerify db store (some resp) now).1.token ≠ none ∨
        (loginVerify db store (some resp) now).1.tempToken ≠ none) := by
    cases ht : user.totp_enabled with
    | true =>
      refine ⟨?_, Or.inr ?_⟩ <;>
        simp [loginVerify, verifyAuthentication, hc, hs, hch, hver, ht]
    | false =>
      refine ⟨?_, Or.inl ?_⟩ <;>
        simp [loginVerify, verifyAuthentication, hc, hs, hch, hver, ht]
  refine ⟨hpk.1, hpk.2, ?_, ?_⟩ <;>
  · simp only [login, hne, hnb, hl, ha, hu, hw, if_true, if_false, Bool.false_eq_true,
      not_false_eq_true]
    rcases hstat with h | h | h <;> rw [h] <;> simp

/-- C6 evaluated: Carol is `PENDING_APPROVAL`, owns a passkey, and a valid
assertion logs her in with a full session token, while her correct password
is answered 403 with code `PENDING_APPROVAL`. -/
theorem c6_witness :
    (loginVerify fixtureDB [("auth-_discoverable_", "CH")]
        (some ⟨"cred-3", "CH", 8, true⟩) 0).1.status = 200 ∧
    ((loginVerify fixtureDB [("auth-_discoverable_", "CH")]
        (some ⟨"cred-3", "CH", 8, true⟩) 0).1.token ≠ none ∨
      (loginVerify fixtureDB [("auth-_discoverable_", "CH")]
        (some ⟨"cred-3", "CH", 8, true⟩) 0).1.tempToken ≠ none) ∧
    (login fixtureDB [] cmpHash "carol@x.com" "pw3" 0).1.status = 403 ∧
    (login fixtureDB [] cmpHash "carol@x.com" "pw3" 0).1.code = some carolPending.status :=
  c6_passkey_login_bypasses_status_check fixtureDB [("auth-_discoverable_", "CH")]
    [] cmpHash ⟨"cred-3", "CH", 8, true⟩ carolKey carolPending "CH"
    "carol@x.com" "pw3" 0 (by decide) (by decide) (by decide) (by decide)
    (by decide) (by decide) (by decide) (by decide) (by decide) (by decide)
    (by decide) (by decide) (by decide)

/-! ## C5 — recovery codes are single-use -/

/-- C5: presenting a stored recovery code to 2FA validation with a valid
pending-2FA temp token issues a session, and the resulting store holds the
account with that code erased from its (duplicate-free) recovery list; any
later 2FA-validation attempt for the same account presenting the same
recovery code — under any temp token, any secret, any time — earns no
session token, never answers 200, and leaves the store unchanged. -/
theorem c5_recovery_code_single_use (db : DB) (totpVerify : String → String → Bool)
    (p : TokenPayload) (user : Student) (codes : List String) (rc : String) (now : Nat)
    (hreq : p.requires2FA = true)
    (hexp : now < p.exp)
    (hu : findStudentById db p.id = some user)
    (hcodes : user.recovery_codes = some codes)
    (hnodup : codes.Nodup)
    (hmem : trimStr (toUpperStr rc) ∈ codes) :
    (validate2FA db totpVerify (some (.signed p JWT_SECRET)) none (some rc) now).1.status
      = 200 ∧
    (validate2FA db totpVerify (some (.signed p JWT_SECRET)) none (some rc) now).1.token
      ≠ none ∧
    findStudentById
        (validate2FA db totpVerify (some (.signed p JWT_SECRET)) none (some rc) now).2 p.id =
      some { user with recovery_codes := some (codes.erase (trimStr (toUpperStr rc))) } ∧
    (∀ (p' : TokenPayload) (s' : String) (now' : Nat), p'.id = p.id →
      (validate2FA
          (validate2FA db totpVerify (some (.signed p JWT_SECRET)) none (some rc) now).2
          totpVerify (some (.signed p' s')) none (some rc) now').1.token = none ∧
      (validate2FA
          (validate2FA db totpVerify (some (.signed p JWT_SECRET)) none (some rc) now).2
          totpVerify (some (.signed p' s')) none (some rc) now').1.status ≠ 200 ∧
      (validate2FA
          (validate2FA db totpVerify (some (.signed p JWT_SECRET)) none (some rc) now).2
          totpVerify (some (.signed p' s')) none (some rc) now').2 =
        (validate2FA db totpVerify (some (.signed p JWT_SECRET)) none (some rc) now).2) := by
  have hid : user.id = p.id := by
    have := List.find?_some hu
    simpa using this
  have hfirst : validate2FA db totpVerify (some (.signed p JWT_SECRET)) none (some rc) now =
      (sessionResponse (updateRecoveryCodes db user.id (codes.erase (trimStr (toUpperStr rc))))
          user now,
        updateRecoveryCodes db user.id (codes.erase (trimStr (toUpperStr rc)))) := by
    simp [validate2FA, jwtVerify, jsonCodes, hexp, hreq, hu, hcodes, hmem]
  have hu2 : findStudentById
      (validate2FA db totpVerify (some (.signed p JWT_SECRET)) none (some rc) now).2 p.id =
      some { user with recovery_codes := some (codes.erase (trimStr (toUpperStr rc))) } := by
    have hu' : findStudentById db user.id = some user := by rw [hid]; exact hu
    rw [hfirst]
    show findStudentById
        (updateRecoveryCodes db user.id (codes.erase (trimStr (toUpperStr rc)))) p.id = _
    rw [← hid, findStudentById_updateRecoveryCodes, hu']
    rfl
  refine ⟨by rw [hfirst]; rfl, by rw [hfirst]; exact fun h => Option.noConfusion h, hu2, ?_⟩
  intro p' s' now' hp'
  rw [← hp'] at hu2
  generalize hdb2 : (validate2FA db totpVerify (some (.signed p JWT_SECRET)) none
      (some rc) now).2 = db₂ at hu2 ⊢
  by_cases hs' : s' = JWT_SECRET
  · by_cases he' : now' < p'.exp
    · cases hr' : p'.requires2FA with
      | false =>
        refine ⟨?_, ?_, ?_⟩ <;>
          simp [validate2FA, jwtVerify, hs', he', hr']
      | true =>
        have hnm : trimStr (toUpperStr rc) ∉ codes.erase (trimStr (toUpperStr rc)) :=
          hnodup.not_mem_erase
        refine ⟨?_, ?_, ?_⟩ <;>
          simp [validate2FA, jwtVerify, jsonCodes, hs', he', hr', hu2, hnm]
    · refine ⟨?_, ?_, ?_⟩ <;> simp [validate2FA, jwtVerify, hs', he']
  · refine ⟨?_, ?_, ?_⟩ <;> simp [validate2FA, jwtVerify, hs']

/-- C5 evaluated: Alice redeems recovery code `aaaa1111` (stored uppercase)
once, the stored list shrinks, and no later attempt with the same code can
earn a session. -/
theorem c5_witness :
    (validate2FA fixtureDB (fun _ _ => false)
        (some (.signed ⟨"stu-1", "alice@x.com", none, true, 300000⟩ JWT_SECRET))
        none (some "aaaa1111") 0).1.status = 200 ∧
    (validate2FA fixtureDB (fun _ _ => false)
        (some (.signed ⟨"stu-1", "alice@x.com", none, true, 300000⟩ JWT_SECRET))
        none (some "aaaa1111") 0).1.token ≠ none ∧
    findStudentById
        (validate2FA fixtureDB (fun _ _ => false)
          (some (.signed ⟨"stu-1", "alice@x.com", none, true, 300000⟩ JWT_SECRET))
          none (some "aaaa1111") 0).2 "stu-1" =
      some aliceAfterRedeem ∧
    (∀ (p' : TokenPayload) (s' : String) (now' : Nat), p'.id = "stu-1" →
      (validate2FA
          (validate2FA fixtureDB (fun _ _ => false)
            (some (.signed ⟨"stu-1", "alice@x.com", none, true, 300000⟩ JWT_SECRET))
            none (some "aaaa1111") 0).2
          (fun _ _ => false) (some (.signed p' s')) none (some "aaaa1111") now').1.token
        = none ∧
      (validate2FA
          (validate2FA fixtureDB (fun _ _ => false)
            (some (.signed ⟨"stu-1", "alice@x.com", none, true, 300000⟩ JWT_SECRET))
            none (some "aaaa1111") 0).2
          (fun _ _ => false) (some (.signed p' s')) none (some "aaaa1111") now').1.status
        ≠ 200 ∧
      (validate2FA
          (validate2FA fixtureDB (fun _ _ => false)
            (some (.signed ⟨"stu-1", "alice@x.com", none, true, 300000⟩ JWT_SECRET))
            none (some "aaaa1111") 0).2
          (fun _ _ => false) (some (.signed p' s')) none (some "aaaa1111") now').2 =
        (validate2FA fixtureDB (fun _ _ => false)
          (some (.signed ⟨"stu-1", "alice@x.com", none, true, 300000⟩ JWT_SECRET))
          none (some "aaaa1111") 0).2) :=
  c5_recovery_code_single_use fixtureDB (fun _ _ => false)
    ⟨"stu-1", "alice@x.com", none, true, 300000⟩ aliceTotp ["AAAA1111", "BBBB2222"]
    "aaaa1111" 0 (by decide) (by decide) (by decide) (by decide) (by decide) (by decide)

end DCIVS
